import Mathlib

/-!
# Verification of the `ssssh` SSH server core

Shallow embedding of the parts of the `ssssh` repository (an SSH-2.0 server
library in Rust) that the specification's claims are about, together with
theorems settling each claim.

Bytes are modelled as `Nat` (values `< 256` where produced by the code);
byte strings as `List Nat`; machine-integer wraparound is explicit (`% 2^32`
for `u32`, `% 256` for `u8`).  Fallible code returns `Except`/`Option` or a
dedicated result inductive; the pending/ready distinction of the async
reader is a dedicated constructor.
-/

namespace Ssssh

/-! ## Binary Packet Protocol (`src/stream/bpp.rs`) -/

/-- `MAXIMUM_PACKET_SIZE` from `src/stream/bpp.rs` line 17. -/
def MAXIMUM_PACKET_SIZE : Nat := 35000

/-- `pad_len` from `src/stream/bpp.rs` lines 19–28:
`pad = (1 + len + 4) % bs; if pad > bs - 4 { bs * 2 - pad } else { bs - pad }`.
Subtraction is `Nat` truncated subtraction, which agrees with Rust `usize`
arithmetic on all non-panicking executions (`bs ≥ 4`). -/
def pad_len (len bs : Nat) : Nat :=
  let pad := (1 + len + 4) % bs
  if pad > bs - 4 then bs * 2 - pad else bs - pad

/-- Big-endian `u32` serialization (`BufMut::put_u32`). -/
def u32be (n : Nat) : List Nat :=
  [n / 2 ^ 24 % 256, n / 2 ^ 16 % 256, n / 2 ^ 8 % 256, n % 256]

/-- Big-endian parse of the first four bytes (`Buf::get_u32`). -/
def beToNat (l : List Nat) : Nat :=
  l.foldl (fun a b => a * 256 + b) 0

/-- Modelled from the spec: the transport state halves (`State::new` in
`state.rs`, a file of this repository not present under `src/`) start in
the initial configuration: `plain` cipher (identity, block size 8 per
`src/encrypt/plain.rs`), `none` MAC (empty tag, length 0), `none`
compression (identity per `src/comp/none.rs`), and a 32-bit sequence
counter that wraps at `2^32` and is read-then-incremented by
`get_and_inc_seq`.  Each half is just its sequence number here; cipher,
MAC and compression are fixed at the initial configuration. -/
structure Half where
  seq : Nat
  deriving Repr, DecidableEq

/-- `get_and_inc_seq`: returns the current sequence number and increments
it, wrapping at `2^32` (the spec's 32-bit counter). -/
def get_and_inc_seq (h : Half) : Nat × Half :=
  (h.seq, ⟨(h.seq + 1) % 2 ^ 32⟩)

/-- `BppStream::start_send` (`src/stream/bpp.rs` lines 166–198) with the
server-to-client half in the initial configuration: compression is the
identity, the cipher is `plain` (identity, block size 8) and the MAC is
`none` (empty tag).  The random padding bytes are passed in as `pad`
(the code draws them from `SystemRandom`; their contents are never
inspected).  Returns the bytes appended to the encrypted tx buffer and
the updated half. -/
def start_send (item : List Nat) (pad : List Nat) (stoc : Half) :
    List Nat × Half :=
  let len := item.length
  let bs := 8
  let padding_length := pad_len len bs
  let lenField := (len + padding_length + 1) % 2 ^ 32
  let plain := u32be lenField ++ [pad.length % 256] ++ item ++ pad
  let enc := plain
  let (_, stoc') := get_and_inc_seq stoc
  let sign : List Nat := []
  (enc ++ sign, stoc')

/-- Result of parsing the first decrypted block in
`BppStream::poll_next` (`DecryptState::FillFirst`, lines 95–112). -/
inductive FillFirstResult
  | pending
  | tooLarge (reported : Nat)
  | proceed (len : Nat)
  deriving Repr, DecidableEq

/-- The `FillFirst` arm of `BppStream::poll_next` (lines 95–112): wait for
`bs` ciphertext bytes, decrypt one block, parse `packet_length`, and fail
with `SshError::TooLargePacket(len + 4 + mac_length)` when
`len + 4 + mac_length > MAXIMUM_PACKET_SIZE`; otherwise move to
`FillRemaining { len }`.  The cipher is kept abstract as `decrypt`
(applied to the first block), so this arm covers any block cipher. -/
def fillFirst (bs mac_length : Nat) (decrypt : List Nat → List Nat)
    (rx : List Nat) : FillFirstResult :=
  if rx.length < bs then .pending
  else
    let block := decrypt (rx.take bs)
    let len := beToNat (block.take 4)
    if len + 4 + mac_length > MAXIMUM_PACKET_SIZE then
      .tooLarge (len + 4 + mac_length)
    else .proceed len

/-- Result of one `poll_next` call on a buffered receive buffer. -/
inductive DecodeResult
  | pending
  | tooLarge (reported : Nat)
  | ok (payload : List Nat) (rest : List Nat)
  deriving Repr, DecidableEq

/-- `BppStream::poll_next` (`src/stream/bpp.rs` lines 79–149) with the
client-to-server half in the initial configuration (`plain` cipher of
block size 8, `none` MAC of length 0, `none` compression), starting in
`DecryptState::FillFirst`, run on the buffered ciphertext `rx`:
decrypt the first block, parse and bound-check `packet_length`, fill the
remainder, verify the (empty) MAC with the current sequence number and
increment it, slice the payload out of `[5, len + 4 - pad)`, and return
it together with what is left in the receive buffer. -/
def poll_next (rx : List Nat) (ctos : Half) : DecodeResult × Half :=
  let bs := 8
  let mac_length := 0
  match fillFirst bs mac_length id rx with
  | .pending => (.pending, ctos)
  | .tooLarge n => (.tooLarge n, ctos)
  | .proceed len =>
    if rx.length < len + 4 + mac_length then (.pending, ctos)
    else
      let buf := rx.take (len + 4 + mac_length)
      let rest := rx.drop (len + 4 + mac_length)
      let plain := rx.take bs ++ ((buf.drop bs).take (len + 4 - bs))
      let (_, ctos') := get_and_inc_seq ctos
      let pad := plain.getD 4 0
      let payload := (plain.drop 5).take (len + 4 - pad - 5)
      (.ok payload rest, ctos')

/-- Parsing a big-endian `u32` undoes serializing it. -/
theorem beToNat_u32be (n : Nat) (h : n < 2 ^ 32) : beToNat (u32be n) = n := by
  simp only [beToNat, u32be, List.foldl]
  omega

/-- Bounds on `pad_len` at block size 8 (the initial `plain` cipher). -/
theorem pad_len_bs8 (len : Nat) : 4 ≤ pad_len len 8 ∧ pad_len len 8 ≤ 11 := by
  simp only [pad_len]
  split <;> omega

/-- At block size 8 the padded packet length is 8-aligned. -/
theorem pad_len_align8 (len : Nat) : (4 + 1 + len + pad_len len 8) % 8 = 0 := by
  simp only [pad_len]
  split <;> omega

example : pad_len 0 8 = 11 := by decide
example : pad_len 3 8 = 8 := by decide
example : pad_len 11 8 = 8 := by decide
example : pad_len 12 16 = 15 := by decide
example :
    start_send [42, 43, 44] (List.replicate 8 9) ⟨5⟩ =
      ([0, 0, 0, 12, 8, 42, 43, 44, 9, 9, 9, 9, 9, 9, 9, 9], ⟨6⟩) := by
  decide
example :
    poll_next [0, 0, 0, 12, 8, 42, 43, 44, 9, 9, 9, 9, 9, 9, 9, 9] ⟨7⟩ =
      (.ok [42, 43, 44] [], ⟨8⟩) := by decide

/-- **C2** (amended): for every payload length `len` and cipher block size
`bs` with `8 ≤ bs ≤ 252`, the padding length `p = pad_len len bs` chosen by
the BPP writer satisfies `4 ≤ p ≤ 255` and the encoded packet length through
padding and excluding the MAC, `4 + 1 + len + p`, is a multiple of
`max bs 8`.  (As stated, with an arbitrary `bs ≥ 8`, the claim fails: for
`bs > 252` the branch `bs * 2 - pad` can exceed 255; see the
counterexample.) -/
theorem pad_len_correct (len bs : Nat) (h8 : 8 ≤ bs) (h252 : bs ≤ 252) :
    4 ≤ pad_len len bs ∧ pad_len len bs ≤ 255 ∧
      (4 + 1 + len + pad_len len bs) % max bs 8 = 0 := by
  have hbs0 : 0 < bs := by omega
  have hr : (1 + len + 4) % bs < bs := Nat.mod_lt _ hbs0
  have hdm := Nat.div_add_mod (1 + len + 4) bs
  have hmax : max bs 8 = bs := by omega
  rw [hmax]
  simp only [pad_len]
  split
  · refine ⟨by omega, by omega, ?_⟩
    have he : 4 + 1 + len + (bs * 2 - (1 + len + 4) % bs)
        = bs * ((1 + len + 4) / bs + 2) := by
      rw [Nat.mul_add]
      omega
    rw [he]
    exact Nat.mul_mod_right _ _
  · refine ⟨by omega, by omega, ?_⟩
    have he : 4 + 1 + len + (bs - (1 + len + 4) % bs)
        = bs * ((1 + len + 4) / bs + 1) := by
      rw [Nat.mul_add]
      omega
    rw [he]
    exact Nat.mul_mod_right _ _

/-- **C2** witness: the amended statement holds at `len = 12`, `bs = 16`. -/
theorem pad_len_correct_witness :
    4 ≤ pad_len 12 16 ∧ pad_len 12 16 ≤ 255 ∧
      (4 + 1 + 12 + pad_len 12 16) % max 16 8 = 0 :=
  pad_len_correct 12 16 (by decide) (by decide)

/-- **C1** (amended): BPP frame round-trip.  With both transport-state
halves in their initial configuration (`plain` cipher, `none` MAC,
`none` compression), for every payload `p` of at most 34991 bytes —
exactly the payloads whose encoded packet stays within the reader's
35000-byte bound — encoding `p` with `BppStream::start_send` and
decoding the produced bytes with `BppStream::poll_next` yields exactly
`p` with nothing left over, and each direction's 32-bit sequence counter
advances by exactly one.  `pad` is the random padding drawn by the
writer (its length is fixed by `pad_len`).  For `p.length ≥ 34992` the
reader rejects the writer's own packet as oversized (see the
counterexample). -/
theorem bpp_roundtrip (p pad : List Nat) (ctos stoc : Half)
    (hpad : pad.length = pad_len p.length 8)
    (hlen : p.length ≤ 34991) :
    poll_next (start_send p pad stoc).1 ctos
        = (DecodeResult.ok p [], ⟨(ctos.seq + 1) % 2 ^ 32⟩)
      ∧ (start_send p pad stoc).2 = ⟨(stoc.seq + 1) % 2 ^ 32⟩ := by
  obtain ⟨hpl4, hpl11⟩ := pad_len_bs8 p.length
  have hpl8 := pad_len_align8 p.length
  set pl := pad_len p.length 8 with hpldef
  have hmod1 : (p.length + pl + 1) % 2 ^ 32 = p.length + pl + 1 :=
    Nat.mod_eq_of_lt (by omega)
  have hmod2 : pad.length % 256 = pl := by
    rw [hpad]
    exact Nat.mod_eq_of_lt (by omega)
  have hwire : (start_send p pad stoc).1
      = u32be (p.length + pl + 1) ++ [pl] ++ p ++ pad := by
    simp only [start_send, hmod1, hmod2, List.append_nil]
  refine ⟨?_, by simp [start_send, get_and_inc_seq]⟩
  rw [hwire]
  set W := u32be (p.length + pl + 1) ++ [pl] ++ p ++ pad with hWdef
  have hu32len : (u32be (p.length + pl + 1)).length = 4 := by simp [u32be]
  have hWlen : W.length = p.length + pl + 5 := by
    simp only [hWdef, List.length_append, hu32len, List.length_cons,
      List.length_nil, hpad]
    omega
  have hWassoc : W = u32be (p.length + pl + 1) ++ ([pl] ++ (p ++ pad)) := by
    simp [hWdef, List.append_assoc]
  have h4 : W.take 4 = u32be (p.length + pl + 1) := by
    rw [hWassoc]
    exact List.take_left' hu32len
  have hlen5 : (u32be (p.length + pl + 1) ++ [pl]).length = 5 := by
    simp [hu32len]
  have hW5 : W = (u32be (p.length + pl + 1) ++ [pl]) ++ (p ++ pad) := by
    simp [hWdef, List.append_assoc]
  have hdrop5 : W.drop 5 = p ++ pad := by
    rw [hW5]
    exact List.drop_left' hlen5
  have hgetD : W.getD 4 0 = pl := by
    rw [hWassoc, List.getD_append_right _ _ _ _ (by omega)]
    simp [hu32len]
  have hff : fillFirst 8 0 id W = .proceed (p.length + pl + 1) := by
    have h48 : (W.take 8).take 4 = W.take 4 := by
      rw [List.take_take]
      norm_num
    simp only [fillFirst, MAXIMUM_PACKET_SIZE, id_eq]
    rw [h48, h4, beToNat_u32be _ (by omega), if_neg (by omega),
      if_neg (by omega)]
  simp only [poll_next, hff, get_and_inc_seq]
  rw [if_neg (by omega)]
  have htakefull : W.take (p.length + pl + 1 + 4 + 0) = W :=
    List.take_of_length_le (by omega)
  have hdropnil : W.drop (p.length + pl + 1 + 4 + 0) = [] :=
    List.drop_eq_nil_of_le (by omega)
  rw [htakefull, hdropnil]
  have hplain : W.take 8 ++ (W.drop 8).take (p.length + pl + 1 + 4 - 8) = W := by
    have hd : (W.drop 8).take (p.length + pl + 1 + 4 - 8) = W.drop 8 :=
      List.take_of_length_le (by rw [List.length_drop]; omega)
    rw [hd, List.take_append_drop]
  rw [hplain, hgetD]
  have hpayload : (W.drop 5).take (p.length + pl + 1 + 4 - pl - 5) = p := by
    rw [hdrop5, show p.length + pl + 1 + 4 - pl - 5 = p.length by omega]
    exact List.take_left _ _
  rw [hpayload]

/-- **C1** witness: the round trip holds at payload `[42, 43, 44]` with
sequence numbers 7 (inbound) and 5 (outbound). -/
theorem bpp_roundtrip_witness :
    poll_next (start_send [42, 43, 44] (List.replicate 8 9) ⟨5⟩).1 ⟨7⟩
        = (DecodeResult.ok [42, 43, 44] [], ⟨8⟩)
      ∧ (start_send [42, 43, 44] (List.replicate 8 9) ⟨5⟩).2 = ⟨6⟩ :=
  bpp_roundtrip [42, 43, 44] (List.replicate 8 9) ⟨7⟩ ⟨5⟩ (by decide)
    (by decide)

/-- When the first-block parse rejects the packet as oversized, the
reader returns that error and leaves the sequence counter unchanged. -/
theorem poll_next_tooLarge (rx : List Nat) (ctos : Half) (n : Nat)
    (h : fillFirst 8 0 id rx = .tooLarge n) :
    poll_next rx ctos = (.tooLarge n, ctos) := by
  simp only [poll_next]
  rw [h]

/-- **C1** counterexample: the claim quantifies over *every* payload,
but for the 34992-byte payload `List.replicate 34992 0` the writer
produces a packet of declared length 35004, which the reader rejects
with the oversized-packet error `TooLargePacket 35008` instead of
returning the payload — `decode (encode p) ≠ p`. -/
theorem bpp_roundtrip_claim_counterexample :
    (poll_next
        (start_send (List.replicate 34992 0) (List.replicate 11 0) ⟨0⟩).1
        ⟨0⟩).1
        = DecodeResult.tooLarge 35008
      ∧ (poll_next
          (start_send (List.replicate 34992 0) (List.replicate 11 0) ⟨0⟩).1
          ⟨0⟩).1
        ≠ DecodeResult.ok (List.replicate 34992 0) [] := by
  have hpl : pad_len 34992 8 = 11 := by decide
  have hwire :
      (start_send (List.replicate 34992 0) (List.replicate 11 0)
        (⟨0⟩ : Half)).1
      = u32be 35004
          ++ ([11] ++ (List.replicate 34992 0 ++ List.replicate 11 0)) := by
    simp only [start_send, List.length_replicate, hpl, List.append_nil,
      List.append_assoc]
    norm_num
  have h4 :
      (u32be 35004
        ++ ([11] ++ (List.replicate 34992 (0 : Nat)
              ++ List.replicate 11 (0 : Nat)))).take 4
      = u32be 35004 := List.take_left' (by simp [u32be])
  have hWlen :
      (u32be 35004
        ++ ([11] ++ (List.replicate 34992 (0 : Nat)
              ++ List.replicate 11 (0 : Nat)))).length = 35008 := by
    rw [List.length_append, List.length_append, List.length_append,
      List.length_replicate, List.length_replicate]
    norm_num [u32be]
  have hff :
      fillFirst 8 0 id
        (u32be 35004
          ++ ([11] ++ (List.replicate 34992 0 ++ List.replicate 11 0)))
      = .tooLarge 35008 := by
    have h48 :
        ((u32be 35004
          ++ ([11] ++ (List.replicate 34992 (0 : Nat)
                ++ List.replicate 11 (0 : Nat)))).take 8).take 4
        = (u32be 35004
            ++ ([11] ++ (List.replicate 34992 (0 : Nat)
                  ++ List.replicate 11 (0 : Nat)))).take 4 := by
      rw [List.take_take]
      norm_num
    simp only [fillFirst, MAXIMUM_PACKET_SIZE, id_eq]
    rw [h48, h4, beToNat_u32be 35004 (by norm_num), if_neg (by omega),
      if_pos (by omega)]
  rw [hwire, poll_next_tooLarge _ _ _ hff]
  refine ⟨rfl, ?_⟩
  intro h
  cases h

/-- **C3**: oversize rejection.  For every inbound packet, once the first
block is decrypted and `packet_length` parses as `len`: if
`len + 4 + mac_len > 35000` the reader fails with the oversized-packet
error `SshError::TooLargePacket` reporting exactly `len + 4 + mac_len`;
otherwise no such error is raised and the reader proceeds to
`FillRemaining { len }`. -/
theorem fillFirst_oversize (bs mac_length : Nat)
    (decrypt : List Nat → List Nat) (rx : List Nat)
    (h : ¬ rx.length < bs) :
    (beToNat ((decrypt (rx.take bs)).take 4) + 4 + mac_length > 35000 →
      fillFirst bs mac_length decrypt rx
        = .tooLarge (beToNat ((decrypt (rx.take bs)).take 4) + 4 + mac_length))
    ∧ (beToNat ((decrypt (rx.take bs)).take 4) + 4 + mac_length ≤ 35000 →
      fillFirst bs mac_length decrypt rx
        = .proceed (beToNat ((decrypt (rx.take bs)).take 4))) := by
  constructor <;> intro hc <;>
    simp only [fillFirst, MAXIMUM_PACKET_SIZE] <;>
    rw [if_neg h]
  · rw [if_pos (by omega)]
  · rw [if_neg (by omega)]

/-- **C3** witness: with block size 8, MAC length 0 and the identity
cipher, a declared length of 36000 is rejected reporting 36004, and a
declared length of 12 proceeds to fill the remainder. -/
theorem fillFirst_oversize_witness :
    fillFirst 8 0 id [0, 0, 140, 160, 0, 0, 0, 0]
        = FillFirstResult.tooLarge 36004
      ∧ fillFirst 8 0 id [0, 0, 0, 12, 0, 0, 0, 0]
        = FillFirstResult.proceed 12 :=
  ⟨(fillFirst_oversize 8 0 id [0, 0, 140, 160, 0, 0, 0, 0] (by decide)).1
      (by decide),
    (fillFirst_oversize 8 0 id [0, 0, 0, 12, 0, 0, 0, 0] (by decide)).2
      (by decide)⟩

/-- **C2** counterexample: at compressed length `len = 248` and block size
`bs = 256 ≥ 8`, the code picks `pad_len 248 256 = 259 > 255`, so the claim
`p ≤ 255` fails as stated for arbitrary `bs ≥ 8`. -/
theorem pad_len_claim_counterexample :
    8 ≤ 256 ∧ pad_len 248 256 = 259 ∧ ¬ pad_len 248 256 ≤ 255 := by
  refine ⟨by decide, by decide, by decide⟩

/-! ## Key exchange: curve25519-sha256 (`src/kex/curve25519.rs`) -/

/-- The `SshError` variants reachable from `Curve25519Sha256::kex`
(lines 43–48): a non-`KexEcdhInit` message, a stream error, or end of
stream. -/
inductive SshErr
  | kexUnexpectedMsg
  | kexUnexpectedEof
  | recvError
  deriving Repr, DecidableEq

/-- The inbound messages distinguishable by `Curve25519Sha256::kex`'s
`match io.next().await`: `Msg::KexEcdhInit` is destructured, every other
variant falls into the catch-all arm. -/
inductive KexMsg
  | kexEcdhInit (Qc : List Nat)
  | kexinit
  | kexEcdhReply
  | dhRequest
  | newkeys
  | disconnect
  | ignore
  | debug
  | userauthRequest
  | channelData
  deriving Repr, DecidableEq

/-- The `Env` handed to the kex sub-protocol (`KexEnv::new` call in
`Connection::on_kexinit`): the two version strings, the two raw KEXINIT
byte strings and the host public-key blob. -/
structure KexEnv where
  c_version : List Nat
  s_version : List Nat
  c_kexinit : List Nat
  s_kexinit : List Nat
  hostkeyBlob : List Nat
  deriving Repr, DecidableEq

/-- `KexEcdhReply::new(env.hostkey.publickey(), Qs, signature)` as sent by
`Curve25519Sha256::kex`. -/
structure KexEcdhReplyMsg where
  public_host_key : List Nat
  ephemeral_public_key : List Nat
  signature : List Nat
  deriving Repr, DecidableEq

/-- The `(hash, key)` pair returned by `Curve25519Sha256::kex` together
with the `SSH_MSG_KEX_ECDH_REPLY` it sends. -/
structure KexOutput where
  hash : List Nat
  sharedSecret : List Nat
  reply : KexEcdhReplyMsg
  deriving Repr, DecidableEq

/-- Modelled from the spec: SSH `string` packing (`Pack` in `pack.rs`, a
file of this repository not present under `src/`): a 4-byte big-endian
length followed by the bytes. -/
def packString (s : List Nat) : List Nat :=
  u32be (s.length % 2 ^ 32) ++ s

/-- Modelled from the spec: SSH `mpint` packing (`Mpint` in `pack.rs`,
not present under `src/`) of a nonnegative magnitude given as big-endian
bytes: strip leading zero bytes, prepend a zero byte when the leading
byte has its high bit set, then pack as an SSH `string`. -/
def mpintOfBytes (k : List Nat) : List Nat :=
  let m := k.dropWhile (· = 0)
  let body := if 128 ≤ m.headD 0 then 0 :: m else m
  packString body

/-- `Curve25519Sha256::kex` (`src/kex/curve25519.rs` lines 27–80).  The
hash function (SHA-256, `Hasher::sha256`), the host-key signing function
and the crypto outputs (`Qs` from the generated ephemeral keypair, `K`
from `agree_ephemeral`) are abstract parameters; the hasher is modelled
as the byte string accumulated by the successive `pack(&mut hasher)`
calls, in program order: `c_version`, `s_version`, `c_kexinit`,
`s_kexinit`, hostkey blob, then — after `KEX_ECDH_INIT` is received —
`Qc`, `Qs`, and `K` as an mpint.  Any other message, a stream error, or
end of stream is an error (lines 43–48). -/
def curve25519_kex (hash sign : List Nat → List Nat) (env : KexEnv)
    (inbound : Option (Except SshErr KexMsg)) (Qs K : List Nat) :
    Except SshErr KexOutput :=
  let hasher : List Nat := []
  let hasher := hasher ++ packString env.c_version
  let hasher := hasher ++ packString env.s_version
  let hasher := hasher ++ packString env.c_kexinit
  let hasher := hasher ++ packString env.s_kexinit
  let hasher := hasher ++ packString env.hostkeyBlob
  match inbound with
  | some (.ok (.kexEcdhInit Qc)) =>
    let hasher := hasher ++ packString Qc
    let hasher := hasher ++ packString Qs
    let hasher := hasher ++ mpintOfBytes K
    let h := hash hasher
    .ok { hash := h
          sharedSecret := K
          reply := { public_host_key := env.hostkeyBlob
                     ephemeral_public_key := Qs
                     signature := sign h } }
  | some (.ok _) => .error .kexUnexpectedMsg
  | some (.error _) => .error .recvError
  | none => .error .kexUnexpectedEof

/-- **C4**: exchange-hash composition for curve25519-sha256.  On
receiving `KEX_ECDH_INIT(Qc)`, the kex operation returns the hash of
exactly `string(V_C) ‖ string(V_S) ‖ string(I_C) ‖ string(I_S) ‖
string(K_S) ‖ string(Qc) ‖ string(Qs) ‖ mpint(K)` in that order, and
sends `KEX_ECDH_REPLY` carrying `K_S`, `Qs` and the host-key signature
over that hash. -/
theorem curve25519_exchange_hash (hash sign : List Nat → List Nat)
    (env : KexEnv) (Qc Qs K : List Nat) :
    curve25519_kex hash sign env (some (.ok (.kexEcdhInit Qc))) Qs K
      = .ok
          { hash := hash (packString env.c_version
              ++ packString env.s_version
              ++ packString env.c_kexinit
              ++ packString env.s_kexinit
              ++ packString env.hostkeyBlob
              ++ packString Qc
              ++ packString Qs
              ++ mpintOfBytes K)
            sharedSecret := K
            reply := { public_host_key := env.hostkeyBlob
                       ephemeral_public_key := Qs
                       signature := sign (hash (packString env.c_version
                         ++ packString env.s_version
                         ++ packString env.c_kexinit
                         ++ packString env.s_kexinit
                         ++ packString env.hostkeyBlob
                         ++ packString Qc
                         ++ packString Qs
                         ++ mpintOfBytes K)) } } := by
  simp [curve25519_kex, List.append_assoc]

/-- **C7** counterexample: during the curve25519 exchange an inbound
`SSH_MSG_IGNORE` is treated as a protocol error (`KexUnexpectedMsg`) and
aborts the key exchange, contradicting the claim that IGNORE does not
abort it. -/
theorem kex_filter_claim_counterexample :
    curve25519_kex id id ⟨[], [], [], [], []⟩ (some (.ok .ignore)) [] []
        = .error .kexUnexpectedMsg
      ∧ curve25519_kex id id ⟨[], [], [], [], []⟩ (some (.ok .debug)) [] []
        = .error .kexUnexpectedMsg := by
  constructor <;> rfl

/-- **C7** (amended): while the curve25519 exchange waits for the
client's reply, the only inbound message it accepts is `KEX_ECDH_INIT`;
every other message — including IGNORE, DEBUG, KEXINIT, NEWKEYS and
DISCONNECT — is rejected with `KexUnexpectedMsg` and aborts the key
exchange. -/
theorem curve25519_rejects_all_but_ecdh_init
    (hash sign : List Nat → List Nat) (env : KexEnv) (m : KexMsg)
    (Qs K : List Nat) (h : ∀ Qc, m ≠ KexMsg.kexEcdhInit Qc) :
    curve25519_kex hash sign env (some (.ok m)) Qs K
      = .error .kexUnexpectedMsg := by
  cases m with
  | kexEcdhInit Qc => exact absurd rfl (h Qc)
  | _ => rfl

/-- **C7** witness: the amended statement at `m = ignore`. -/
theorem curve25519_rejects_all_but_ecdh_init_witness :
    curve25519_kex id id ⟨[], [], [], [], []⟩ (some (.ok .ignore)) [] []
      = .error .kexUnexpectedMsg :=
  curve25519_rejects_all_but_ecdh_init id id ⟨[], [], [], [], []⟩ .ignore
    [] [] (fun _ h => by cases h)

/-! ## Connection dispatcher (`src/connection.rs`) -/

/-- The `ConnectionError` variants of `src/connection.rs` lines 30–53
relevant here (errors that propagate out of the dispatch loop `run0`). -/
inductive ConnectionError
  | kexError
  | authError
  | channelError
  | unknownChannelId (id : Nat)
  deriving Repr, DecidableEq

/-- The handler methods whose error behaviour the dispatcher decides
(`Handler` trait, `src/handler.rs`). -/
inductive HandlerMethod
  | authNone
  | authPassword
  | authPublickey
  | channelOpenSession
  | channelPtyRequest
  | channelShellRequest
  | channelExecRequest
  | channelData
  | channelEof
  | channelClose
  deriving Repr, DecidableEq

/-- Protocol replies the dispatcher can send in place of a handler
error. -/
inductive Reply
  | channelOpenFailure
  | channelFailure
  | noReply
  deriving Repr, DecidableEq

/-- What the dispatcher does with a handler error: either it recovers
locally — sends the reply and the `run0` loop continues — or the error
is converted to a `ConnectionError` and propagated out of the dispatch
loop by `?`. -/
inductive DispatchOutcome
  | recovered (r : Reply)
  | fatal (e : ConnectionError)
  deriving Repr, DecidableEq

/-- How `Connection` treats an error returned by each handler method,
traced from `src/connection.rs`: `auth_none` (line 304), `auth_publickey`
(line 326) and `auth_password` (line 384) are mapped by
`.map_err(... AuthError ...)?` and propagate; `channel_open_session`
(lines 434–444) is recovered with `CHANNEL_OPEN_FAILURE`;
`channel_pty_request` / `channel_shell_request` / `channel_exec_request`
(lines 491–497) are recovered, replying `CHANNEL_FAILURE` when
`want_reply` is set; `channel_data` (line 511), `channel_eof` (line 523)
and `channel_close` (line 535) are mapped to `ChannelError` and
propagate. -/
def handlerErrorOutcome (m : HandlerMethod) (want_reply : Bool) :
    DispatchOutcome :=
  match m with
  | .authNone => .fatal .authError
  | .authPassword => .fatal .authError
  | .authPublickey => .fatal .authError
  | .channelOpenSession => .recovered .channelOpenFailure
  | .channelPtyRequest =>
    .recovered (if want_reply then .channelFailure else .noReply)
  | .channelShellRequest =>
    .recovered (if want_reply then .channelFailure else .noReply)
  | .channelExecRequest =>
    .recovered (if want_reply then .channelFailure else .noReply)
  | .channelData => .fatal .channelError
  | .channelEof => .fatal .channelError
  | .channelClose => .fatal .channelError

/-- **C5** counterexample: an error returned by `auth_none` is not
translated into a protocol reply — `on_userauth_request` converts it to
`ConnectionError::AuthError` and propagates it out of the dispatch loop,
so the claim that handler errors are never fatal is false. -/
theorem handler_error_claim_counterexample :
    handlerErrorOutcome .authNone true = .fatal .authError
      ∧ handlerErrorOutcome .channelData true = .fatal .channelError := by
  exact ⟨rfl, rfl⟩

/-- **C5** (amended): handler errors from `channel_open_session` are
recovered with `CHANNEL_OPEN_FAILURE`, and errors from the channel
request handlers (`channel_pty_request`, `channel_shell_request`,
`channel_exec_request`) are recovered, replying `CHANNEL_FAILURE` when
`want_reply` is set; but errors from `auth_none`, `auth_password` and
`auth_publickey` propagate out of the dispatch loop as `AuthError`, and
errors from `channel_data`, `channel_eof` and `channel_close` propagate
as `ChannelError`, terminating the connection. -/
theorem handler_error_outcomes (want_reply : Bool) :
    handlerErrorOutcome .channelOpenSession want_reply
        = .recovered .channelOpenFailure
      ∧ handlerErrorOutcome .channelPtyRequest want_reply
        = .recovered (if want_reply then .channelFailure else .noReply)
      ∧ handlerErrorOutcome .channelShellRequest want_reply
        = .recovered (if want_reply then .channelFailure else .noReply)
      ∧ handlerErrorOutcome .channelExecRequest want_reply
        = .recovered (if want_reply then .channelFailure else .noReply)
      ∧ handlerErrorOutcome .authNone want_reply = .fatal .authError
      ∧ handlerErrorOutcome .authPassword want_reply = .fatal .authError
      ∧ handlerErrorOutcome .authPublickey want_reply = .fatal .authError
      ∧ handlerErrorOutcome .channelData want_reply = .fatal .channelError
      ∧ handlerErrorOutcome .channelEof want_reply = .fatal .channelError
      ∧ handlerErrorOutcome .channelClose want_reply
        = .fatal .channelError := by
  cases want_reply <;> decide

instance {ε α : Type} [DecidableEq ε] [DecidableEq α] :
    DecidableEq (Except ε α) := fun a b =>
  match a, b with
  | .error e, .error f =>
    if h : e = f then .isTrue (h ▸ rfl)
    else .isFalse fun hh => h (Except.error.inj hh)
  | .error _, .ok _ => .isFalse fun hh => Except.noConfusion hh
  | .ok _, .error _ => .isFalse fun hh => Except.noConfusion hh
  | .ok x, .ok y =>
    if h : x = y then .isTrue (h ▸ rfl)
    else .isFalse fun hh => h (Except.ok.inj hh)

/-- The externally observable events of `Connection::on_kexinit`
(`src/connection.rs` lines 230–276), in program order. -/
inductive KexEvent
  | sendKexinit
  | kexSubprotocol
  | recvNewkeys
  | sendNewkeys
  | changeKey
  deriving Repr, DecidableEq

/-- What `rx.next().await` yields while `on_kexinit` waits for the
peer's `SSH_MSG_NEWKEYS` (lines 261–267): a `Newkeys` message, some
other message, or end of stream. -/
inductive InboundAfterKex
  | newkeys
  | otherMsg
  | eof
  deriving Repr, DecidableEq

/-- `Connection::on_kexinit` (`src/connection.rs` lines 230–276) as an
event trace.  Negotiation success and the kex sub-protocol's success are
abstracted to booleans; `next` is what arrives after the sub-protocol.
Program order: `send_immediately(server_kexinit)` (line 234); negotiate
(line 238, error aborts); the kex sub-protocol (line 255, error aborts);
`rx.next()` must yield `Newkeys` (lines 261–267, anything else aborts);
`send_immediately(msg::Newkeys)` (line 263); `state.change_key(&h, &k)`
(line 273). -/
def on_kexinit (negotiationOk kexOk : Bool) (next : InboundAfterKex) :
    Except ConnectionError Unit × List KexEvent :=
  let tr : List KexEvent := [.sendKexinit]
  if ¬negotiationOk then (.error .kexError, tr)
  else
    let tr := tr ++ [.kexSubprotocol]
    if ¬kexOk then (.error .kexError, tr)
    else
      match next with
      | .newkeys =>
        let tr := tr ++ [.recvNewkeys, .sendNewkeys, .changeKey]
        (.ok (), tr)
      | .otherMsg => (.error .kexError, tr)
      | .eof => (.error .kexError, tr)

/-- **C6** counterexample: in the successful KEX run the trace is
`[sendKexinit, kexSubprotocol, recvNewkeys, sendNewkeys, changeKey]`:
the peer's NEWKEYS is received *before* the server's own NEWKEYS is
sent, and `change_key` runs *after* both NEWKEYS events — so the
replacement of the transport state does not happen strictly between
the two NEWKEYS messages as claimed. -/
theorem newkeys_change_key_claim_counterexample :
    (on_kexinit true true .newkeys).1 = .ok ()
      ∧ (on_kexinit true true .newkeys).2
        = [.sendKexinit, .kexSubprotocol, .recvNewkeys, .sendNewkeys,
           .changeKey]
      ∧ ((on_kexinit true true .newkeys).2.indexOf KexEvent.recvNewkeys = 2
        ∧ (on_kexinit true true .newkeys).2.indexOf KexEvent.sendNewkeys = 3
        ∧ (on_kexinit true true .newkeys).2.indexOf KexEvent.changeKey = 4)
      ∧ ¬(((on_kexinit true true .newkeys).2.indexOf KexEvent.sendNewkeys
            < (on_kexinit true true .newkeys).2.indexOf KexEvent.changeKey
          ∧ (on_kexinit true true .newkeys).2.indexOf KexEvent.changeKey
            < (on_kexinit true true .newkeys).2.indexOf KexEvent.recvNewkeys)
        ∨ ((on_kexinit true true .newkeys).2.indexOf KexEvent.recvNewkeys
            < (on_kexinit true true .newkeys).2.indexOf KexEvent.changeKey
          ∧ (on_kexinit true true .newkeys).2.indexOf KexEvent.changeKey
            < (on_kexinit true true .newkeys).2.indexOf
                KexEvent.sendNewkeys)) := by
  decide

/-- **C6** (amended): in every KEX run that completes, the server first
receives the peer's NEWKEYS, then sends its own NEWKEYS, and
`change_key` replaces the transport state immediately after its own
NEWKEYS has been sent — after both NEWKEYS events and before any further
message is processed; in every run that fails, `change_key` is never
reached, so the keys are never swapped outside that window. -/
theorem on_kexinit_change_key_order (negotiationOk kexOk : Bool)
    (next : InboundAfterKex) :
    ((on_kexinit negotiationOk kexOk next).1 = .ok () →
      (on_kexinit negotiationOk kexOk next).2
        = [.sendKexinit, .kexSubprotocol, .recvNewkeys, .sendNewkeys,
           .changeKey])
    ∧ ((on_kexinit negotiationOk kexOk next).1 ≠ .ok () →
      KexEvent.changeKey ∉ (on_kexinit negotiationOk kexOk next).2) := by
  cases negotiationOk <;> cases kexOk <;> cases next <;> decide

/-- **C6** witness: the amended statement at a successful run and at a
run aborted by a non-NEWKEYS message. -/
theorem on_kexinit_change_key_order_witness :
    (on_kexinit true true .newkeys).2
        = [.sendKexinit, .kexSubprotocol, .recvNewkeys, .sendNewkeys,
           .changeKey]
      ∧ KexEvent.changeKey ∉ (on_kexinit true true .otherMsg).2 :=
  ⟨(on_kexinit_change_key_order true true .newkeys).1 (by decide),
    (on_kexinit_change_key_order true true .otherMsg).2 (by decide)⟩

/-- The fields of `SSH_MSG_CHANNEL_OPEN` read by
`Connection::on_channel_open`. -/
structure ChannelOpen where
  sender_channel : Nat
  initial_window_size : Nat
  maximum_packet_size : Nat
  deriving Repr, DecidableEq

/-- The channel types distinguished by `on_channel_open`: `Session` is
handled, everything else falls to the catch-all arm. -/
inductive ChannelType
  | session
  | unknownType
  deriving Repr, DecidableEq

/-- The reply chosen by `on_channel_open`: the confirmation's fields in
constructor order (`ChannelOpenConfirmation::new(recipient_channel,
sender_channel, initial_window_size, maximum_packet_size)` — the second
field is the channel id the server reports as its own). -/
inductive ChannelOpenReply
  | confirmation (recipient_channel sender_channel initial_window_size
      maximum_packet_size : Nat)
  | failureConnectFailed (recipient_channel : Nat)
  | failureUnknownChannelType (recipient_channel : Nat)
  deriving Repr, DecidableEq

/-- `Connection::on_channel_open` (`src/connection.rs` lines 413–460).
The channel-handle map is modelled as the list of registered channel
ids; `accepted` is whether `handler.channel_open_session` returned
`Ok`.  For a `Session` open the handle is created with
`new_channel_handle(msg.sender_channel())` (line 418), registered under
its channel id and then looked up under `msg.sender_channel()` with
`.expect("never occurred")` (lines 419–424) — so the local channel id
is the client-chosen `sender_channel` — and on acceptance the reply is
`ChannelOpenConfirmation::new(msg.sender_channel(),
msg.sender_channel(), msg.initial_window_size(),
msg.maximum_packet_size())` (lines 427–433). -/
def on_channel_open (handles : List Nat) (ty : ChannelType)
    (accepted : Bool) (m : ChannelOpen) : List Nat × ChannelOpenReply :=
  match ty with
  | .session =>
    let handles := handles ++ [m.sender_channel]
    if accepted then
      (handles,
        .confirmation m.sender_channel m.sender_channel
          m.initial_window_size m.maximum_packet_size)
    else
      (handles.erase m.sender_channel,
        .failureConnectFailed m.sender_channel)
  | .unknownType => (handles, .failureUnknownChannelType m.sender_channel)

/-- The channel id the server reports as its own in the reply to a
`CHANNEL_OPEN` (the `sender_channel` field of the confirmation). -/
def reportedLocalId (r : ChannelOpenReply) : Option Nat :=
  match r with
  | .confirmation _ s _ _ => some s
  | _ => none

/-- **C8** counterexample: two accepted session opens with client-chosen
`sender_channel` 5 and then 3 make the server report local ids 5 and
then 3 — the second id is not strictly greater than the first, and each
equals the client-chosen `sender_channel`, so the ids are neither drawn
from a monotonically increasing counter nor independent of the client's
choice. -/
theorem channel_id_claim_counterexample :
    reportedLocalId (on_channel_open [] .session true ⟨5, 32768, 32768⟩).2
        = some 5
      ∧ reportedLocalId
          (on_channel_open
            (on_channel_open [] .session true ⟨5, 32768, 32768⟩).1
            .session true ⟨3, 32768, 32768⟩).2 = some 3
      ∧ ¬(3 : Nat) > 5 := by
  decide

/-- **C8** (amended): for every accepted `CHANNEL_OPEN(session)`, the
local channel id the server registers and reports in
`CHANNEL_OPEN_CONFIRMATION` is exactly the client-chosen
`sender_channel` of that request (there is no server-side counter), and
the confirmation echoes the client's window and packet sizes. -/
theorem on_channel_open_uses_sender_channel (handles : List Nat)
    (m : ChannelOpen) :
    on_channel_open handles .session true m
      = (handles ++ [m.sender_channel],
          .confirmation m.sender_channel m.sender_channel
            m.initial_window_size m.maximum_packet_size) := by
  rfl

/-! ## `Connection::run0` and the timeout (`src/connection.rs`) -/

/-- A Rust panic reached in the shallow embedding. -/
inductive RustPanic
  | unwrapNone
  deriving Repr, DecidableEq

/-- The first statement of `Connection::run0` (`src/connection.rs` line
189): `self.rx.take().unwrap().timeout(self.timeout.unwrap())`.
`self.timeout` is the `Option<Duration>` passed unchanged through the
public constructor `Connection::establish` (lines 109–147), and
`Option::unwrap` panics on `None`; otherwise the unwrapped duration is
used. -/
def run0_timeout_unwrap (timeout : Option Nat) : Except RustPanic Nat :=
  match timeout with
  | some t => .ok t
  | none => .error .unwrapNone

/-- **C9**: the claim is right and the code is wrong.  The public
constructor accepts `timeout = None`, but `Connection::run` calls
`run0`, whose first statement unwraps `self.timeout`; with `timeout =
None` this panics instead of returning a `Result`, so the panic crosses
the API boundary before any dispatching happens.  With `Some t` the
unwrap succeeds. -/
theorem run0_timeout_none_panics :
    run0_timeout_unwrap none = .error .unwrapNone
      ∧ run0_timeout_unwrap (some 30) = .ok 30 := by
  decide

/-! ## Public-key authentication dispatch (`src/connection.rs`) -/

/-- The fields of the `publickey` userauth method
(`UserauthRequestMethod::Publickey`) read by `on_userauth_request`. -/
structure PublickeyRequest where
  algorithm : List Nat
  blob : List Nat
  signature : Option (List Nat)
  deriving Repr, DecidableEq

/-- The handler's verdict (`Auth` in `src/handler.rs`). -/
inductive AuthDecision
  | accept
  | reject
  deriving Repr, DecidableEq

/-- The replies `on_userauth_request` can send for the publickey
method. -/
inductive UserauthReply
  | success
  | pkOk (algorithm blob : List Nat)
  | failure (partFlag : Bool)
  deriving Repr, DecidableEq

/-- The `M::Publickey` arm of `Connection::on_userauth_request`
(`src/connection.rs` lines 317–344): when the request carries a
signature the server immediately replies `USERAUTH_SUCCESS` (the
`// TODO CHECK` branch, lines 318–320) — the handler is not called and
the signature is not verified; when it carries none,
`handler.auth_publickey` decides between `USERAUTH_PK_OK` and
`USERAUTH_FAILURE`.  The second component records whether
`auth_publickey` was invoked. -/
def on_userauth_publickey (item : PublickeyRequest)
    (handlerResult : AuthDecision) : UserauthReply × Bool :=
  match item.signature with
  | some _ => (.success, false)
  | none =>
    match handlerResult with
    | .accept => (.pkOk item.algorithm item.blob, true)
    | .reject => (.failure false, true)

/-- **C10**: every `USERAUTH_REQUEST(publickey)` whose payload includes
a signature is answered with `USERAUTH_SUCCESS` without invoking
`auth_publickey` and independently of the handler's verdict (so the
signature is never verified against the key blob); the handler is
consulted exactly when no signature is present. -/
theorem publickey_signature_bypasses_handler (item : PublickeyRequest)
    (handlerResult : AuthDecision) :
    (∀ sig, item.signature = some sig →
      on_userauth_publickey item handlerResult
        = (.success, false))
    ∧ (item.signature = none →
      (on_userauth_publickey item handlerResult).2 = true) := by
  obtain ⟨alg, blob, sig⟩ := item
  cases sig <;> cases handlerResult <;>
    simp [on_userauth_publickey]

/-- **C10** witness: a signed request from a rejecting handler still
yields `USERAUTH_SUCCESS` with no handler call; an unsigned request
invokes the handler. -/
theorem publickey_signature_bypasses_handler_witness :
    on_userauth_publickey ⟨[1], [2], some [3]⟩ .reject
        = (.success, false)
      ∧ (on_userauth_publickey ⟨[1], [2], none⟩ .accept).2 = true :=
  ⟨(publickey_signature_bypasses_handler ⟨[1], [2], some [3]⟩ .reject).1
      [3] rfl,
    (publickey_signature_bypasses_handler ⟨[1], [2], none⟩ .accept).2 rfl⟩

end Ssssh
